import Mathlib

/-!
Shallow embedding of `src/blocks/jack.rs` (i3status-rust jack block).

The block's state (`JackSoundDevice`), its refresh operation (`get_info`,
lines 81-127 of the source), its construction (`JackSoundDevice::new`,
`Jack::new`) and the two live monitor loops spawned by `monitor`
(lines 130-228) are modelled below.  External effects — the JACK server
probe, the `amixer` subprocess output, the `alsactl monitor` reads and
the session-bus signals — are passed in as explicit inputs.

All string manipulation is re-implemented with structural recursion over
`List Char` (mirroring the Rust `str` operations used by the source:
`trim`, `lines`, `split_whitespace`, `starts_with`, `contains`,
`trim_matches`, `parse::<u32>`), so that every definition evaluates by
kernel reduction.
-/

namespace JackBlock

/-- Rust `char::is_whitespace` restricted to the ASCII whitespace the
mixer output can contain (Lean's `Char.isWhitespace`). -/
def isWS (c : Char) : Bool := c.isWhitespace

/-- Rust `str::trim` on the character list: drop whitespace from both ends. -/
def rustTrim (l : List Char) : List Char :=
  ((l.dropWhile isWS).reverse.dropWhile isWS).reverse

/-- Rust `str::trim` at the `String` level. -/
def rustTrimS (s : String) : String := String.mk (rustTrim s.data)

/-- Helper for Rust `str::lines`: split on `'\n'`, keeping empty segments. -/
def splitNLAux : List Char → List Char → List (List Char)
  | [], acc => [acc.reverse]
  | c :: rest, acc =>
    if c == '\n' then acc.reverse :: splitNLAux rest [] else splitNLAux rest (c :: acc)

/-- Rust `str::lines` on a character list: the empty string has no lines, a
final line terminator produces no trailing empty line, and a trailing
`'\r'` of each line is stripped. -/
def rustLinesL (l : List Char) : List (List Char) :=
  match l with
  | [] => []
  | _ =>
    let parts := splitNLAux l []
    let parts := if l.getLast? == some '\n' then parts.dropLast else parts
    parts.map (fun p => if p.getLast? == some '\r' then p.dropLast else p)

/-- Rust `str::lines` at the `String` level. -/
def rust_lines (s : String) : List String := (rustLinesL s.data).map String.mk

/-- Helper for Rust `str::split_whitespace`: accumulate the current token
(reversed) and cut at whitespace, discarding empty tokens. -/
def splitWSAux : List Char → List Char → List (List Char)
  | [], acc => if acc.isEmpty then [] else [acc.reverse]
  | c :: rest, acc =>
    if isWS c then
      if acc.isEmpty then splitWSAux rest []
      else acc.reverse :: splitWSAux rest []
    else splitWSAux rest (c :: acc)

/-- Rust `str::split_whitespace`. -/
def split_whitespace (s : String) : List String :=
  (splitWSAux s.data []).map String.mk

/-- Substring test on character lists (Rust `str::contains` with a string
pattern). -/
def containsSubL : List Char → List Char → Bool
  | [], pat => pat.isEmpty
  | c :: rest, pat => pat.isPrefixOf (c :: rest) || containsSubL rest pat

/-- Rust `str::contains` at the `String` level. -/
def rustContains (s pat : String) : Bool := containsSubL s.data pat.data

/-- Rust `str::starts_with(c)` for a single character. -/
def rustStartsWithChar (s : String) (c : Char) : Bool := s.data.head? == some c

/-- The source's `FILTER` constant (line 353): `&['[', ']', '%']`. -/
def FILTER : List Char := ['[', ']', '%']

/-- Membership in `FILTER`, as the predicate `trim_matches` strips with. -/
def inFILTER (c : Char) : Bool := c == '[' || c == ']' || c == '%'

/-- Rust `str::trim_matches(FILTER)` on a character list: strip `FILTER`
characters from both ends. -/
def trimMatchesL (l : List Char) : List Char :=
  ((l.dropWhile inFILTER).reverse.dropWhile inFILTER).reverse

/-- Rust `str::trim_matches(FILTER)` at the `String` level. -/
def trim_matches (s : String) : String := String.mk (trimMatchesL s.data)

/-- Numeric value of a digit list (most significant first). -/
def natOfDigits (cs : List Char) : Nat :=
  cs.foldl (fun a c => a * 10 + (c.toNat - 48)) 0

/-- Rust `str::parse::<u32>()`: an optional leading `'+'`, then at least one
ASCII digit, and the value must fit in 32 bits; anything else is `Err`. -/
def parseU32 (s : String) : Option Nat :=
  let ds := match s.data with
    | c :: rest => if c == '+' then rest else c :: rest
    | [] => []
  if ds.isEmpty then none
  else if ds.all Char.isDigit && natOfDigits ds < 2 ^ 32 then some (natOfDigits ds)
  else none

/-- The tokens of one mixer-output line that survive the source's filter
(line 114): whitespace-separated tokens that start with `'['` and do not
contain `"dB"`, before bracket/percent trimming. -/
def keptTokens (line : String) : List String :=
  (split_whitespace line).filter
    (fun x => rustStartsWithChar x '[' && !(rustContains x "dB"))

/-- The filtered tokens after `trim_matches(FILTER)` (line 115): what the
source binds to `last`. -/
def filteredOf (line : String) : List String :=
  (keptTokens line).map trim_matches

/-- The filtered token list the mixer phase works on for a given raw
`amixer` stdout: trim the output, take the last line, filter and trim its
tokens (lines 104-116). Empty when the trimmed output has no lines. -/
def mixTokens (raw : String) : List String :=
  match (rust_lines (rustTrimS raw)).getLast? with
  | none => []
  | some line => filteredOf line

/-- The in-memory state of the block's device, `struct JackSoundDevice`
(lines 35-42). -/
structure JackSoundDevice where
  name : String
  volume : Nat
  muted : Bool
  jack_running : Bool
  jack_capturing : Bool
  jack_rolling : Bool
deriving DecidableEq, Repr

/-- `jack_sys` transport-state enumerator: stopped. -/
def JackTransportStopped : Nat := 0

/-- `jack_sys` transport-state enumerator: rolling (the one line 91
compares against). -/
def JackTransportRolling : Nat := 1

/-- `jack_sys` transport-state enumerator: looping. -/
def JackTransportLooping : Nat := 2

/-- `jack_sys` transport-state enumerator: starting. -/
def JackTransportStarting : Nat := 3

/-- Outcome of `jack::Client::new(..., NO_START_SERVER)` together with the
queries `get_info` performs on a live client: the transport enumerator
returned by `jack_transport_query` and whether
`port_by_name("jack_capture:input1")` finds a port. -/
inductive ProbeResult where
  | failure : ProbeResult
  | success (transport : Nat) (hasCapturePort : Bool) : ProbeResult
deriving DecidableEq, Repr

/-- The probe half of `get_info` (lines 82-100): reset the three jack
flags, then, only if the client connection succeeded, set
`jack_rolling` iff the transport enumerator is `JackTransportRolling`,
set `jack_running`, and set `jack_capturing` from the port lookup.
A failed connection falls through silently (`_ => {}`). -/
def probePhase (sd : JackSoundDevice) (probe : ProbeResult) : JackSoundDevice :=
  let sd := { sd with jack_capturing := false, jack_running := false, jack_rolling := false }
  match probe with
  | ProbeResult.failure => sd
  | ProbeResult.success transport hasCapturePort =>
    { sd with
        jack_rolling := transport == JackTransportRolling,
        jack_running := true,
        jack_capturing := hasCapturePort }

/-- The mixer half of `get_info` (lines 101-126).  `amixer = none` models a
failed `amixer` invocation; `some raw` is the raw stdout text.  The state
is returned alongside the `Result` because the Rust method mutates
`self` in place: on an error the fields assigned so far keep their new
values and the rest keep their old ones. -/
def mixerPhase (sd : JackSoundDevice) (amixer : Option String) :
    JackSoundDevice × Except String Unit :=
  match amixer with
  | none => (sd, Except.error "could not run amixer to get sound info")
  | some raw =>
    match (rust_lines (rustTrimS raw)).getLast? with
    | none => (sd, Except.error "could not get sound info")
    | some last_line =>
      match (filteredOf last_line)[0]? with
      | none => (sd, Except.error "could not get volume")
      | some v0 =>
        match parseU32 v0 with
        | none => (sd, Except.error "could not parse volume to u32")
        | some v =>
          ({ sd with
              volume := v,
              muted := (((filteredOf last_line)[1]?).map (fun m => m == "off")).getD false },
           Except.ok ())

/-- `JackSoundDevice::get_info` (lines 81-127): probe phase then mixer
phase. -/
def get_info (sd : JackSoundDevice) (probe : ProbeResult) (amixer : Option String) :
    JackSoundDevice × Except String Unit :=
  mixerPhase (probePhase sd probe) amixer

/-- `JackSoundDevice::new` (lines 45-57): zero-initialised state, then one
`get_info`, propagating its error. -/
def JackSoundDevice_new (name : String) (probe : ProbeResult) (amixer : Option String) :
    Except String JackSoundDevice :=
  let sd : JackSoundDevice :=
    { name := name, volume := 0, muted := false,
      jack_running := false, jack_capturing := false, jack_rolling := false }
  match get_info sd probe amixer with
  | (sd', Except.ok _) => Except.ok sd'
  | (_, Except.error e) => Except.error e

/-- A `Task` (`crate::scheduler::Task`) as the block sends it: the block's
identity string and the `Instant::now()` timestamp, modelled as a number. -/
structure Task where
  id : String
  update_time : Nat
deriving DecidableEq, Repr

/-- Result of one `monitor.read(&mut buffer)` call on the `alsactl monitor`
stdout pipe: `ok n` is `Ok(n)` with `n` bytes delivered (`n = 0` at end of
file, e.g. after the subprocess dies), `err` is an `Err` from the read
call itself. -/
inductive ReadResult where
  | ok (n : Nat) : ReadResult
  | err : ReadResult
deriving DecidableEq, Repr

/-- The nanosecond count of `Duration::new(0, 250_000_000)`, the sleep both
monitor loops end every iteration with (lines 159 and 223): 250 ms. -/
def loopSleepNanos : Nat := 250000000

/-- One iteration of the control-change watcher loop (lines 145-160): if
the read call returned `Ok` — whatever was read, even zero bytes — send
one `Task` carrying the captured id; on `Err` send nothing; either way
the iteration ends with the 250 ms sleep (second component, in ns). -/
def controlStep (id0 : String) (now : Nat) (r : ReadResult) : List Task × Nat :=
  (match r with
   | ReadResult.ok _ => [{ id := id0, update_time := now }]
   | ReadResult.err => [],
   loopSleepNanos)

/-- The control-change watcher's emission trace after `k` iterations of its
infinite `loop`; `reads k` is the read outcome and `times k` the clock at
iteration `k`.  The loop body has no exit, so the trace extends at every
`k`. -/
def controlRun (id0 : String) (reads : Nat → ReadResult) (times : Nat → Nat) :
    Nat → List Task
  | 0 => []
  | k + 1 => controlRun id0 reads times k ++ (controlStep id0 (times k) (reads k)).1

/-- A matched session-bus signal (one of the six `add_match` rules of
lines 204-210); its content is never inspected (`Some(_)`). -/
structure BusSignal where
  serial : Nat
deriving DecidableEq, Repr

/-- The millisecond timeout handed to `c.incoming(1000)` (line 214): the
bus watcher blocks at most one second per iteration. -/
def busWaitMs : Nat := 1000

/-- One iteration of the bus-signal watcher loop (lines 212-224):
`received` is the queue of matched signals available within the wait
window; `c.incoming(1000).next()` yields at most one of them, so at most
one `Task` is sent per window no matter how many signals arrived.  The
second and third components are the wait bound (ms) and the
unconditional 250 ms sleep (ns). -/
def busStep (id2 : String) (now : Nat) (received : List BusSignal) :
    List Task × Nat × Nat :=
  (match received with
   | [] => []
   | _ :: _ => [{ id := id2, update_time := now }],
   busWaitMs, loopSleepNanos)

/-- The bus-signal watcher's emission trace after `k` iterations; `arrive k`
is the list of matched signals available in iteration `k`'s wait window. -/
def busRun (id2 : String) (arrive : Nat → List BusSignal) (times : Nat → Nat) :
    Nat → List Task
  | 0 => []
  | k + 1 => busRun id2 arrive times k ++ (busStep id2 (times k) (arrive k)).1

/-- The widget `struct Jack` (lines 231-237), restricted to the fields the
claims speak about (the text widget and global config are presentation
state). -/
structure Jack where
  id : String
  device : JackSoundDevice
  show_volume_when_muted : Bool
deriving DecidableEq, Repr

/-- `Jack::new` (lines 324-349): `fresh` is the uuid-v4 simple string
minted by line 329; the device is built for the configured control name
(defaulting to `"Master"`), construction fails iff the initial
`get_info` fails, and the minted id is stored in the widget and is the
id `monitor` is called with. -/
def Jack_new (fresh : String) (cfgName : Option String) (svm : Bool)
    (probe : ProbeResult) (amixer : Option String) : Except String Jack :=
  match JackSoundDevice_new (cfgName.getD "Master") probe amixer with
  | Except.error e => Except.error e
  | Except.ok dev => Except.ok { id := fresh, device := dev, show_volume_when_muted := svm }

/-- `Block::id` for `Jack` (lines 368-370): returns the stored identity. -/
def Jack_id (j : Jack) : String := j.id

/-! ## Helper lemmas -/

theorem digit_not_in_FILTER (c : Char) (h : c.isDigit = true) : inFILTER c = false := by
  have h1 : (c == '[') = false := by
    cases hb : c == '['
    · rfl
    · have hc : c = '[' := eq_of_beq hb
      subst hc
      exact absurd h (by decide)
  have h2 : (c == ']') = false := by
    cases hb : c == ']'
    · rfl
    · have hc : c = ']' := eq_of_beq hb
      subst hc
      exact absurd h (by decide)
  have h3 : (c == '%') = false := by
    cases hb : c == '%'
    · rfl
    · have hc : c = '%' := eq_of_beq hb
      subst hc
      exact absurd h (by decide)
  simp [inFILTER, h1, h2, h3]

theorem digit_ne_plus (c : Char) (h : c.isDigit = true) : (c == '+') = false := by
  cases hb : c == '+'
  · rfl
  · have hc : c = '+' := eq_of_beq hb
    subst hc
    exact absurd h (by decide)

theorem dropWhile_inFILTER_of_digits (l : List Char) (h : l.all Char.isDigit = true) :
    l.dropWhile inFILTER = l := by
  cases l with
  | nil => rfl
  | cons a t =>
    simp only [List.all_cons, Bool.and_eq_true] at h
    simp [List.dropWhile_cons, digit_not_in_FILTER a h.1]

/-- Trimming `FILTER` characters off a bracketed percentage token leaves
exactly the digit string. -/
theorem trimMatchesL_bracket (ds : List Char) (hne : ds ≠ [])
    (hd : ds.all Char.isDigit = true) :
    trimMatchesL ('[' :: ds ++ ['%', ']']) = ds := by
  unfold trimMatchesL
  rw [List.cons_append]
  have h1 : List.dropWhile inFILTER ('[' :: (ds ++ ['%', ']'])) = ds ++ ['%', ']'] := by
    rw [List.dropWhile_cons]
    have hbr : inFILTER '[' = true := by decide
    rw [hbr]
    simp only [if_true]
    cases ds with
    | nil => exact absurd rfl hne
    | cons d t =>
      simp only [List.all_cons, Bool.and_eq_true] at hd
      simp [List.dropWhile_cons, digit_not_in_FILTER d hd.1]
  rw [h1]
  have h2 : (ds ++ ['%', ']']).reverse = ']' :: '%' :: ds.reverse := by
    simp
  rw [h2]
  have hrev : ds.reverse.all Char.isDigit = true := by
    simp only [List.all_eq_true] at hd ⊢
    intro x hx
    exact hd x (List.mem_reverse.mp hx)
  rw [List.dropWhile_cons]
  have hc1 : inFILTER ']' = true := by decide
  rw [hc1]
  simp only [if_true]
  rw [List.dropWhile_cons]
  have hc2 : inFILTER '%' = true := by decide
  rw [hc2]
  simp only [if_true]
  rw [dropWhile_inFILTER_of_digits ds.reverse hrev, List.reverse_reverse]

/-- `parse::<u32>` on a pure digit string in range yields its value. -/
theorem parseU32_digits (ds : List Char) (hne : ds ≠ [])
    (hd : ds.all Char.isDigit = true) (hlt : natOfDigits ds < 2 ^ 32) :
    parseU32 (String.mk ds) = some (natOfDigits ds) := by
  have hlt' : natOfDigits ds < 4294967296 := by
    have h32 : (2 : Nat) ^ 32 = 4294967296 := by norm_num
    rw [h32] at hlt
    exact hlt
  unfold parseU32
  cases ds with
  | nil => exact absurd rfl hne
  | cons d t =>
    simp only [List.all_cons, Bool.and_eq_true] at hd
    simp [digit_ne_plus d hd.1, List.all_cons, hd.1, hd.2, hlt, hlt']

/-- The mixer phase never touches the jack flags or the control name. -/
theorem mixerPhase_frame (sd : JackSoundDevice) (amixer : Option String) :
    (mixerPhase sd amixer).1.jack_running = sd.jack_running ∧
    (mixerPhase sd amixer).1.jack_rolling = sd.jack_rolling ∧
    (mixerPhase sd amixer).1.jack_capturing = sd.jack_capturing ∧
    (mixerPhase sd amixer).1.name = sd.name := by
  unfold mixerPhase
  split
  · exact ⟨rfl, rfl, rfl, rfl⟩
  · split
    · exact ⟨rfl, rfl, rfl, rfl⟩
    · split
      · exact ⟨rfl, rfl, rfl, rfl⟩
      · split
        · exact ⟨rfl, rfl, rfl, rfl⟩
        · exact ⟨rfl, rfl, rfl, rfl⟩

/-- The mixer phase either leaves the state exactly as it came in (every
error branch) or reports success. -/
theorem mixerPhase_cases (sd : JackSoundDevice) (amixer : Option String) :
    (mixerPhase sd amixer).1 = sd ∨ (mixerPhase sd amixer).2 = Except.ok () := by
  unfold mixerPhase
  split
  · exact Or.inl rfl
  · split
    · exact Or.inl rfl
    · split
      · exact Or.inl rfl
      · split
        · exact Or.inl rfl
        · exact Or.inr rfl

/-- On any mixer-phase error the state comes back exactly as it went in. -/
theorem mixerPhase_err_frame (sd : JackSoundDevice) (amixer : Option String) (e : String)
    (h : (mixerPhase sd amixer).2 = Except.error e) :
    (mixerPhase sd amixer).1 = sd := by
  rcases mixerPhase_cases sd amixer with hc | hc
  · exact hc
  · rw [hc] at h
    exact Except.noConfusion h

/-- The `Result` of the mixer phase does not depend on the incoming state. -/
theorem mixerPhase_result_indep (sd sd' : JackSoundDevice) (amixer : Option String) :
    (mixerPhase sd amixer).2 = (mixerPhase sd' amixer).2 := by
  unfold mixerPhase
  split
  · rfl
  · split
    · rfl
    · split
      · rfl
      · split
        · rfl
        · rfl

/-- Success path of the mixer phase, pinned to an explicit last line and
first filtered token. -/
theorem mixerPhase_line (sd : JackSoundDevice) (raw line v0 : String) (n : Nat)
    (hls : (rust_lines (rustTrimS raw)).getLast? = some line)
    (h0 : (filteredOf line)[0]? = some v0)
    (hp : parseU32 v0 = some n) :
    mixerPhase sd (some raw) =
      ({ sd with
          volume := n,
          muted := (((filteredOf line)[1]?).map (fun m => m == "off")).getD false },
       Except.ok ()) := by
  simp only [mixerPhase, hls, h0, hp]

/-- When the first filtered token of the trimmed output's last line is
missing or unparseable, the mixer phase fails and returns the state
unchanged. -/
theorem mixerPhase_noparse (sd : JackSoundDevice) (raw : String)
    (h : ((mixTokens raw)[0]?).bind parseU32 = none) :
    ∃ e, mixerPhase sd (some raw) = (sd, Except.error e) := by
  simp only [mixerPhase]
  cases hls : (rust_lines (rustTrimS raw)).getLast? with
  | none => exact ⟨_, rfl⟩
  | some line =>
    dsimp only
    unfold mixTokens at h
    rw [hls] at h
    dsimp only at h
    cases h0 : (filteredOf line)[0]? with
    | none => exact ⟨_, rfl⟩
    | some v0 =>
      rw [h0] at h
      simp only [Option.some_bind] at h
      dsimp only
      rw [h]
      exact ⟨_, rfl⟩

/-- The probe phase never touches volume, mute or the control name. -/
theorem probePhase_frame (sd : JackSoundDevice) (probe : ProbeResult) :
    (probePhase sd probe).volume = sd.volume ∧
    (probePhase sd probe).muted = sd.muted ∧
    (probePhase sd probe).name = sd.name := by
  unfold probePhase
  cases probe with
  | failure => exact ⟨rfl, rfl, rfl⟩
  | success t cap => exact ⟨rfl, rfl, rfl⟩

/-- Every task the control-change watcher ever emits carries the id the
thread captured. -/
theorem controlRun_mem_id (id0 : String) (reads : Nat → ReadResult) (times : Nat → Nat) :
    ∀ (k : Nat) (t : Task), t ∈ controlRun id0 reads times k → t.id = id0 := by
  intro k
  induction k with
  | zero =>
    intro t ht
    simp [controlRun] at ht
  | succ k ih =>
    intro t ht
    simp only [controlRun, List.mem_append] at ht
    rcases ht with ht | ht
    · exact ih t ht
    · unfold controlStep at ht
      dsimp only at ht
      cases hr : reads k with
      | ok n =>
        rw [hr] at ht
        simp only [List.mem_singleton] at ht
        rw [ht]
      | err =>
        rw [hr] at ht
        exact absurd ht (List.not_mem_nil t)

/-- Every task the bus-signal watcher ever emits carries the id the thread
captured. -/
theorem busRun_mem_id (id2 : String) (arrive : Nat → List BusSignal) (times : Nat → Nat) :
    ∀ (k : Nat) (t : Task), t ∈ busRun id2 arrive times k → t.id = id2 := by
  intro k
  induction k with
  | zero =>
    intro t ht
    simp [busRun] at ht
  | succ k ih =>
    intro t ht
    simp only [busRun, List.mem_append] at ht
    rcases ht with ht | ht
    · exact ih t ht
    · unfold busStep at ht
      dsimp only at ht
      cases ha : arrive k with
      | nil =>
        rw [ha] at ht
        exact absurd ht (List.not_mem_nil t)
      | cons a rest =>
        rw [ha] at ht
        simp only [List.mem_singleton] at ht
        rw [ht]

/-! ## Claim theorems -/

/-- C1, counterexample: the claim says a failed mixer parse leaves *every*
field of the snapshot unchanged, `jack_running` included.  But `get_info`
runs the server probe (which first resets the jack flags) *before* the
mixer parse: starting from a snapshot with `jack_running = true`, a call
whose probe fails and whose mixer output's last line
(`"Mono: Playback 50"`) has no bracketed token returns the parse error
`"could not get volume"` with `jack_running` now `false`. -/
theorem claim_C1_counterexample :
    (get_info
        { name := "Master", volume := 50, muted := true,
          jack_running := true, jack_capturing := true, jack_rolling := true }
        ProbeResult.failure (some "Mono: Playback 50")).2
      = Except.error "could not get volume" ∧
    (get_info
        { name := "Master", volume := 50, muted := true,
          jack_running := true, jack_capturing := true, jack_rolling := true }
        ProbeResult.failure (some "Mono: Playback 50")).1.jack_running = false :=
  ⟨rfl, rfl⟩

/-- C1, amended: if the last line of the mixer output has no parseable
bracketed token, `get_info` returns a parse error (it is a total
function, so it cannot panic) and the `volume` and `muted` fields are
left unchanged; the three jack flags, however, are rewritten by the
probe phase that runs first, so they need not keep their pre-call
values. -/
theorem claim_C1_theorem (s : JackSoundDevice) (probe : ProbeResult) (raw : String)
    (h : ((mixTokens raw)[0]?).bind parseU32 = none) :
    (∃ e, (get_info s probe (some raw)).2 = Except.error e) ∧
    (get_info s probe (some raw)).1.volume = s.volume ∧
    (get_info s probe (some raw)).1.muted = s.muted := by
  obtain ⟨e, he⟩ := mixerPhase_noparse (probePhase s probe) raw h
  unfold get_info
  rw [he]
  exact ⟨⟨e, rfl⟩, (probePhase_frame s probe).1, (probePhase_frame s probe).2.1⟩

/-- C1, witness for the amended theorem at a concrete input. -/
theorem claim_C1_witness :
    (∃ e,
      (get_info
          { name := "Master", volume := 42, muted := true,
            jack_running := false, jack_capturing := false, jack_rolling := false }
          ProbeResult.failure (some "Mono: Playback 50")).2 = Except.error e) ∧
    (get_info
        { name := "Master", volume := 42, muted := true,
          jack_running := false, jack_capturing := false, jack_rolling := false }
        ProbeResult.failure (some "Mono: Playback 50")).1.volume = 42 ∧
    (get_info
        { name := "Master", volume := 42, muted := true,
          jack_running := false, jack_capturing := false, jack_rolling := false }
        ProbeResult.failure (some "Mono: Playback 50")).1.muted = true :=
  claim_C1_theorem
    { name := "Master", volume := 42, muted := true,
      jack_running := false, jack_capturing := false, jack_rolling := false }
    ProbeResult.failure "Mono: Playback 50" (by decide)

/-- C2: every iteration of the bus-signal watcher waits at most 1000 ms
(the constant handed to `incoming`), emits no request when no matching
signal was received in the window, emits exactly one request — carrying
the captured id and current time — when one or more signals were
received, and always ends with the 250 ms (250000000 ns) sleep. -/
theorem claim_C2_theorem (id2 : String) (now : Nat) (received : List BusSignal) :
    (busStep id2 now received).2.1 = 1000 ∧
    (busStep id2 now received).2.2 = 250000000 ∧
    (received = [] → (busStep id2 now received).1 = []) ∧
    (received ≠ [] → (busStep id2 now received).1 = [{ id := id2, update_time := now }]) := by
  cases received with
  | nil => exact ⟨rfl, rfl, fun _ => rfl, fun hne => absurd rfl hne⟩
  | cons a t => exact ⟨rfl, rfl, fun hc => List.noConfusion hc, fun _ => rfl⟩

/-- C2, witness: one signal in the window yields exactly one request, an
empty window yields none. -/
theorem claim_C2_witness :
    (busStep "b" 7 [{ serial := 0 }]).1 = [{ id := "b", update_time := 7 }] ∧
    (busStep "b" 8 []).1 = [] :=
  ⟨( claim_C2_theorem "b" 7 [{ serial := 0 }]).2.2.2 (by decide),
   ( claim_C2_theorem "b" 8 []).2.2.1 rfl⟩

/-- C3, counterexample: the claim says a request is emitted only when the
read delivers at least one byte.  The code tests `read(..).is_ok()`
only, so a successful read of zero bytes (end of file, e.g. a dead
subprocess) still emits a request. -/
theorem claim_C3_counterexample :
    (controlStep "a" 0 (ReadResult.ok 0)).1 = [{ id := "a", update_time := 0 }] ∧
    (controlStep "a" 0 (ReadResult.ok 0)).1 ≠ [] :=
  ⟨rfl, by decide⟩

/-- C3, amended: in every iteration of the control-change watcher loop a
request is emitted iff the read returned `Ok`, regardless of the number
of bytes delivered (zero included); a read error emits nothing; the
iteration always ends with the 250 ms sleep; and the loop body has no
exit — the trace extends at every iteration count. -/
theorem claim_C3_theorem (id0 : String) (now : Nat) (r : ReadResult) :
    (controlStep id0 now r).2 = 250000000 ∧
    ((∃ n, r = ReadResult.ok n) →
      (controlStep id0 now r).1 = [{ id := id0, update_time := now }]) ∧
    (r = ReadResult.err → (controlStep id0 now r).1 = []) ∧
    (∀ (reads : Nat → ReadResult) (times : Nat → Nat) (k : Nat),
      controlRun id0 reads times (k + 1) =
        controlRun id0 reads times k ++ (controlStep id0 (times k) (reads k)).1) := by
  refine ⟨rfl, ?_, ?_, fun reads times k => rfl⟩
  · rintro ⟨n, hn⟩
    rw [hn]
    rfl
  · intro hr
    rw [hr]
    rfl

/-- C3, witness for the amended theorem: a successful read emits, an
erroring read does not. -/
theorem claim_C3_witness :
    (controlStep "c" 3 (ReadResult.ok 5)).1 = [{ id := "c", update_time := 3 }] ∧
    (controlStep "c" 4 ReadResult.err).1 = [] :=
  ⟨( claim_C3_theorem "c" 3 (ReadResult.ok 5)).2.1 ⟨5, rfl⟩,
   ( claim_C3_theorem "c" 4 ReadResult.err).2.2.1 rfl⟩

/-- C4: whenever the first filtered token of the mixer output's last line
is a bracketed unsigned integer followed by `%` (and in-range for u32),
the parser stores exactly that integer as the volume and succeeds; in
particular `"Mono: Playback 50 [80%] [on]"` yields volume 80, unmuted,
and `"Mono: Playback 0 [0%] [off]"` yields volume 0, muted. -/
theorem claim_C4_theorem :
    (∀ (s : JackSoundDevice) (probe : ProbeResult) (raw line : String) (ds : List Char),
      (rust_lines (rustTrimS raw)).getLast? = some line →
      (keptTokens line)[0]? = some (String.mk ('[' :: ds ++ ['%', ']'])) →
      ds ≠ [] → ds.all Char.isDigit = true → natOfDigits ds < 2 ^ 32 →
      (get_info s probe (some raw)).1.volume = natOfDigits ds ∧
      (get_info s probe (some raw)).2 = Except.ok ()) ∧
    (∀ (s : JackSoundDevice) (probe : ProbeResult),
      (get_info s probe (some "Mono: Playback 50 [80%] [on]")).1.volume = 80 ∧
      (get_info s probe (some "Mono: Playback 50 [80%] [on]")).1.muted = false ∧
      (get_info s probe (some "Mono: Playback 50 [80%] [on]")).2 = Except.ok ()) ∧
    (∀ (s : JackSoundDevice) (probe : ProbeResult),
      (get_info s probe (some "Mono: Playback 0 [0%] [off]")).1.volume = 0 ∧
      (get_info s probe (some "Mono: Playback 0 [0%] [off]")).1.muted = true ∧
      (get_info s probe (some "Mono: Playback 0 [0%] [off]")).2 = Except.ok ()) := by
  refine ⟨?_, fun s probe => ⟨rfl, rfl, rfl⟩, fun s probe => ⟨rfl, rfl, rfl⟩⟩
  intro s probe raw line ds hls h0 hne hd hlt
  have h0' : (filteredOf line)[0]? =
      some (trim_matches (String.mk ('[' :: ds ++ ['%', ']']))) := by
    unfold filteredOf
    simp [List.getElem?_map, h0]
  have htrim : trim_matches (String.mk ('[' :: ds ++ ['%', ']'])) = String.mk ds := by
    show String.mk (trimMatchesL ('[' :: ds ++ ['%', ']'])) = String.mk ds
    rw [trimMatchesL_bracket ds hne hd]
  rw [htrim] at h0'
  have heq := mixerPhase_line (probePhase s probe) raw line (String.mk ds) (natOfDigits ds)
    hls h0' (parseU32_digits ds hne hd hlt)
  unfold get_info
  rw [heq]
  exact ⟨rfl, rfl⟩

/-- C4, witness for the general part at a concrete output. -/
theorem claim_C4_witness :
    (get_info
        { name := "Master", volume := 0, muted := false,
          jack_running := false, jack_capturing := false, jack_rolling := false }
        ProbeResult.failure (some "Mono: Playback 75 [75%] [on]")).1.volume
      = natOfDigits ['7', '5'] ∧
    (get_info
        { name := "Master", volume := 0, muted := false,
          jack_running := false, jack_capturing := false, jack_rolling := false }
        ProbeResult.failure (some "Mono: Playback 75 [75%] [on]")).2 = Except.ok () :=
  claim_C4_theorem.1
    { name := "Master", volume := 0, muted := false,
      jack_running := false, jack_capturing := false, jack_rolling := false }
    ProbeResult.failure "Mono: Playback 75 [75%] [on]" "Mono: Playback 75 [75%] [on]"
    ['7', '5'] (by decide) (by decide) (by decide) (by decide) (by decide)

/-- C5: when the server probe succeeds, `jack_rolling` is exactly the test
`transport == JackTransportRolling`; the stopped and starting
enumerators (and any other value) all yield `false` with no distinction
between them. -/
theorem claim_C5_theorem (s : JackSoundDevice) (t : Nat) (cap : Bool)
    (amixer : Option String) :
    (get_info s (ProbeResult.success t cap) amixer).1.jack_rolling
      = (t == JackTransportRolling) ∧
    ((get_info s (ProbeResult.success t cap) amixer).1.jack_rolling = true
      ↔ t = JackTransportRolling) ∧
    (get_info s (ProbeResult.success JackTransportStopped cap) amixer).1.jack_rolling
      = false ∧
    (get_info s (ProbeResult.success JackTransportStarting cap) amixer).1.jack_rolling
      = false := by
  have key : ∀ (u : Nat),
      (get_info s (ProbeResult.success u cap) amixer).1.jack_rolling
        = (u == JackTransportRolling) := by
    intro u
    have h := (mixerPhase_frame (probePhase s (ProbeResult.success u cap)) amixer).2.1
    unfold get_info
    rw [h]
    rfl
  refine ⟨key t, ?_, ?_, ?_⟩
  · rw [key t]
    simp [beq_iff_eq]
  · rw [key JackTransportStopped]
    decide
  · rw [key JackTransportStarting]
    decide

/-- C5, witness: a rolling transport sets the flag, a stopped one clears
it, at a concrete state and output. -/
theorem claim_C5_witness :
    (get_info
        { name := "Master", volume := 1, muted := false,
          jack_running := false, jack_capturing := false, jack_rolling := false }
        (ProbeResult.success JackTransportRolling false) (some "x")).1.jack_rolling
      = (JackTransportRolling == JackTransportRolling) :=
  (claim_C5_theorem
    { name := "Master", volume := 1, muted := false,
      jack_running := false, jack_capturing := false, jack_rolling := false }
    JackTransportRolling false (some "x")).1

/-- C6: when the server probe fails, `get_info` leaves all three jack
flags `false` whatever they were before the call, and the failure is not
reported: the returned `Result` is identical to what any other probe
outcome would have produced for the same mixer output. -/
theorem claim_C6_theorem (s : JackSoundDevice) (amixer : Option String) :
    (get_info s ProbeResult.failure amixer).1.jack_running = false ∧
    (get_info s ProbeResult.failure amixer).1.jack_rolling = false ∧
    (get_info s ProbeResult.failure amixer).1.jack_capturing = false ∧
    (∀ probe : ProbeResult,
      (get_info s probe amixer).2 = (get_info s ProbeResult.failure amixer).2) := by
  have hf := mixerPhase_frame (probePhase s ProbeResult.failure) amixer
  unfold get_info
  refine ⟨?_, ?_, ?_, ?_⟩
  · rw [hf.1]
    rfl
  · rw [hf.2.1]
    rfl
  · rw [hf.2.2.1]
    rfl
  · intro probe
    exact mixerPhase_result_indep (probePhase s probe) (probePhase s ProbeResult.failure) amixer

/-- C6, witness: a failed probe clears the flags at a concrete state that
had them all set. -/
theorem claim_C6_witness :
    (get_info
        { name := "Master", volume := 9, muted := false,
          jack_running := true, jack_capturing := true, jack_rolling := true }
        ProbeResult.failure (some "Mono: Playback 50 [80%] [on]")).1.jack_running = false ∧
    (get_info
        { name := "Master", volume := 9, muted := false,
          jack_running := true, jack_capturing := true, jack_rolling := true }
        ProbeResult.failure (some "Mono: Playback 50 [80%] [on]")).1.jack_rolling = false ∧
    (get_info
        { name := "Master", volume := 9, muted := false,
          jack_running := true, jack_capturing := true, jack_rolling := true }
        ProbeResult.failure (some "Mono: Playback 50 [80%] [on]")).1.jack_capturing = false :=
  ⟨(claim_C6_theorem
      { name := "Master", volume := 9, muted := false,
        jack_running := true, jack_capturing := true, jack_rolling := true }
      (some "Mono: Playback 50 [80%] [on]")).1,
   (claim_C6_theorem
      { name := "Master", volume := 9, muted := false,
        jack_running := true, jack_capturing := true, jack_rolling := true }
      (some "Mono: Playback 50 [80%] [on]")).2.1,
   (claim_C6_theorem
      { name := "Master", volume := 9, muted := false,
        jack_running := true, jack_capturing := true, jack_rolling := true }
      (some "Mono: Playback 50 [80%] [on]")).2.2.1⟩

/-- C7: whenever the first filtered token of the last line parses as a
volume, `get_info` succeeds; `muted` is `true` exactly when the second
filtered token is present and equals `"off"`, and in particular the
absence of a second token yields `muted = false` rather than an
error. -/
theorem claim_C7_theorem (s : JackSoundDevice) (probe : ProbeResult) (raw : String) (n : Nat)
    (h : ((mixTokens raw)[0]?).bind parseU32 = some n) :
    (get_info s probe (some raw)).2 = Except.ok () ∧
    (get_info s probe (some raw)).1.volume = n ∧
    (get_info s probe (some raw)).1.muted =
      (((mixTokens raw)[1]?).map (fun m => m == "off")).getD false ∧
    ((mixTokens raw)[1]? = none → (get_info s probe (some raw)).1.muted = false) := by
  cases hls : (rust_lines (rustTrimS raw)).getLast? with
  | none =>
    unfold mixTokens at h
    rw [hls] at h
    simp at h
  | some line =>
    have hmt : mixTokens raw = filteredOf line := by
      unfold mixTokens
      rw [hls]
    rw [hmt] at h ⊢
    cases h0 : (filteredOf line)[0]? with
    | none =>
      rw [h0] at h
      simp at h
    | some v0 =>
      rw [h0] at h
      simp only [Option.some_bind] at h
      have heq := mixerPhase_line (probePhase s probe) raw line v0 n hls h0 h
      unfold get_info
      rw [heq]
      refine ⟨rfl, rfl, rfl, ?_⟩
      intro h1
      rw [h1]
      rfl

/-- C7, witness: a last line whose only bracketed token is the volume
(`"x [50%]"`) succeeds with `muted = false`. -/
theorem claim_C7_witness :
    (get_info
        { name := "Master", volume := 0, muted := true,
          jack_running := false, jack_capturing := false, jack_rolling := false }
        ProbeResult.failure (some "x [50%]")).2 = Except.ok () ∧
    (get_info
        { name := "Master", volume := 0, muted := true,
          jack_running := false, jack_capturing := false, jack_rolling := false }
        ProbeResult.failure (some "x [50%]")).1.volume = 50 ∧
    (get_info
        { name := "Master", volume := 0, muted := true,
          jack_running := false, jack_capturing := false, jack_rolling := false }
        ProbeResult.failure (some "x [50%]")).1.muted = false :=
  ⟨(claim_C7_theorem
      { name := "Master", volume := 0, muted := true,
        jack_running := false, jack_capturing := false, jack_rolling := false }
      ProbeResult.failure "x [50%]" 50 (by decide)).1,
   (claim_C7_theorem
      { name := "Master", volume := 0, muted := true,
        jack_running := false, jack_capturing := false, jack_rolling := false }
      ProbeResult.failure "x [50%]" 50 (by decide)).2.1,
   (claim_C7_theorem
      { name := "Master", volume := 0, muted := true,
        jack_running := false, jack_capturing := false, jack_rolling := false }
      ProbeResult.failure "x [50%]" 50 (by decide)).2.2.2 (by decide)⟩

/-- C8: a successfully constructed widget stores the minted identity, every
task either watcher thread ever emits carries exactly that identity, and
two instances constructed with distinct minted identities (uuid v4 is
modelled as an injectively fresh string) never emit tasks with equal
ids. -/
theorem claim_C8_theorem (fresh : String) (cfgName : Option String) (svm : Bool)
    (probe : ProbeResult) (amixer : Option String) (j : Jack)
    (hj : Jack_new fresh cfgName svm probe amixer = Except.ok j) :
    Jack_id j = fresh ∧
    (∀ (reads : Nat → ReadResult) (times : Nat → Nat) (k : Nat) (t : Task),
      t ∈ controlRun (Jack_id j) reads times k → t.id = fresh) ∧
    (∀ (arrive : Nat → List BusSignal) (times : Nat → Nat) (k : Nat) (t : Task),
      t ∈ busRun (Jack_id j) arrive times k → t.id = fresh) ∧
    (∀ (fresh2 : String) (cfgName2 : Option String) (svm2 : Bool)
       (probe2 : ProbeResult) (amixer2 : Option String) (j2 : Jack),
      Jack_new fresh2 cfgName2 svm2 probe2 amixer2 = Except.ok j2 → fresh ≠ fresh2 →
      ∀ (reads : Nat → ReadResult) (times : Nat → Nat) (k : Nat) (t : Task)
        (reads2 : Nat → ReadResult) (times2 : Nat → Nat) (k2 : Nat) (t2 : Task),
        t ∈ controlRun (Jack_id j) reads times k →
        t2 ∈ controlRun (Jack_id j2) reads2 times2 k2 → t.id ≠ t2.id) := by
  have hid : ∀ (f : String) (cn : Option String) (sv : Bool) (pr : ProbeResult)
      (am : Option String) (jj : Jack),
      Jack_new f cn sv pr am = Except.ok jj → Jack_id jj = f := by
    intro f cn sv pr am jj hjj
    unfold Jack_new at hjj
    cases hdev : JackSoundDevice_new (cn.getD "Master") pr am with
    | error e =>
      rw [hdev] at hjj
      exact Except.noConfusion hjj
    | ok dev =>
      rw [hdev] at hjj
      injection hjj with hrec
      rw [← hrec]
      rfl
  have h1 := hid fresh cfgName svm probe amixer j hj
  refine ⟨h1, ?_, ?_, ?_⟩
  · intro reads times k t ht
    rw [controlRun_mem_id (Jack_id j) reads times k t ht]
    exact h1
  · intro arrive times k t ht
    rw [busRun_mem_id (Jack_id j) arrive times k t ht]
    exact h1
  · intro fresh2 cfgName2 svm2 probe2 amixer2 j2 hj2 hne
    intro reads times k t reads2 times2 k2 t2 ht ht2
    have e1 : t.id = fresh := by
      rw [controlRun_mem_id (Jack_id j) reads times k t ht]
      exact h1
    have e2 : t2.id = fresh2 := by
      rw [controlRun_mem_id (Jack_id j2) reads2 times2 k2 t2 ht2]
      exact hid fresh2 cfgName2 svm2 probe2 amixer2 j2 hj2
    rw [e1, e2]
    exact hne

/-- C8, witness: a concrete construction stores the minted id. -/
theorem claim_C8_witness :
    Jack_id
      { id := "id-a",
        device :=
          { name := "Master", volume := 80, muted := false,
            jack_running := false, jack_capturing := false, jack_rolling := false },
        show_volume_when_muted := false } = "id-a" :=
  ( claim_C8_theorem "id-a" none false ProbeResult.failure
    (some "Mono: Playback 50 [80%] [on]")
    { id := "id-a",
      device :=
        { name := "Master", volume := 80, muted := false,
          jack_running := false, jack_capturing := false, jack_rolling := false },
      show_volume_when_muted := false } rfl).1

/-- C9: after any `get_info` call, successful or not, a true `jack_rolling`
or `jack_capturing` implies a true `jack_running`: the derived flags are
never observable without a successful server connection. -/
theorem claim_C9_theorem (s : JackSoundDevice) (probe : ProbeResult)
    (amixer : Option String) :
    ((get_info s probe amixer).1.jack_rolling = true →
      (get_info s probe amixer).1.jack_running = true) ∧
    ((get_info s probe amixer).1.jack_capturing = true →
      (get_info s probe amixer).1.jack_running = true) := by
  have hf := mixerPhase_frame (probePhase s probe) amixer
  unfold get_info
  rw [hf.1, hf.2.1, hf.2.2.1]
  cases probe <;> simp [probePhase]

/-- C9, witness: at a concrete successful probe the implication fires. -/
theorem claim_C9_witness :
    (get_info
        { name := "Master", volume := 3, muted := false,
          jack_running := false, jack_capturing := false, jack_rolling := false }
        (ProbeResult.success 1 true) (some "x")).1.jack_running = true :=
  (claim_C9_theorem
    { name := "Master", volume := 3, muted := false,
      jack_running := false, jack_capturing := false, jack_rolling := false }
    (ProbeResult.success 1 true) (some "x")).1 rfl

/-- C10: whenever `get_info` returns an error — failed `amixer` run, empty
output, missing or unparseable volume token — the `volume` and `muted`
fields (and the control name) are exactly what they were before the
call; only the three jack flags can differ. -/
theorem claim_C10_theorem (s : JackSoundDevice) (probe : ProbeResult)
    (amixer : Option String) (e : String)
    (h : (get_info s probe amixer).2 = Except.error e) :
    (get_info s probe amixer).1.volume = s.volume ∧
    (get_info s probe amixer).1.muted = s.muted ∧
    (get_info s probe amixer).1.name = s.name := by
  unfold get_info at h ⊢
  rw [mixerPhase_err_frame (probePhase s probe) amixer e h]
  exact probePhase_frame s probe

/-- C10, witness: a failed `amixer` invocation leaves volume and mute
untouched at a concrete state. -/
theorem claim_C10_witness :
    (get_info
        { name := "Master", volume := 33, muted := true,
          jack_running := false, jack_capturing := false, jack_rolling := false }
        (ProbeResult.success 1 true) none).1.volume = 33 ∧
    (get_info
        { name := "Master", volume := 33, muted := true,
          jack_running := false, jack_capturing := false, jack_rolling := false }
        (ProbeResult.success 1 true) none).1.muted = true ∧
    (get_info
        { name := "Master", volume := 33, muted := true,
          jack_running := false, jack_capturing := false, jack_rolling := false }
        (ProbeResult.success 1 true) none).1.name = "Master" :=
  claim_C10_theorem
    { name := "Master", volume := 33, muted := true,
      jack_running := false, jack_capturing := false, jack_rolling := false }
    (ProbeResult.success 1 true) none "could not run amixer to get sound info" rfl

end JackBlock
